import Mathlib

set_option maxRecDepth 16384

namespace WeatherApi

/-!
# Verification of the weather-report service in `src/api.py`

Shallow embedding of the per-province weather pipeline: the cache-check
node, the conditional edge, the search/summarize steps, the code-fence
stripper and the request handlers.  Python strings are modelled as
`String` (a list of unicode scalar values), `time.time()` values as
`ℤ` (integer-valued seconds; every comparison the code makes is an
order comparison, so the fractional part of a float timestamp is
irrelevant to the properties below), and the two network collaborators (the Serper search wrapper and
the LLM) as opaque `String → String` oracles supplied as parameters.
-/

/-- Characters stripped by Python `str.strip()` with no argument (the
unicode whitespace set recognised by `str.isspace`). -/
def pyIsSpace (c : Char) : Bool :=
  c == ' ' || c == '\t' || c == '\n' || c == '\r' || c == '\x0b' || c == '\x0c' ||
  c == '\x1c' || c == '\x1d' || c == '\x1e' || c == '\x1f' || c == '\x85' || c == '\xa0' ||
  c == ' ' || (0x2000 ≤ c.toNat && c.toNat ≤ 0x200a) || c == ' ' ||
  c == ' ' || c == ' ' || c == ' ' || c == '　'

/-- Line boundaries recognised by Python `str.splitlines` (besides the
two-character sequence CR LF, handled separately). -/
def isLineBreak (c : Char) : Bool :=
  c == '\n' || c == '\r' || c == '\x0b' || c == '\x0c' || c == '\x1c' ||
  c == '\x1d' || c == '\x1e' || c == '\x85' || c == ' ' || c == ' '

/-- Leading half of Python `str.strip()`. -/
def dropLeading (l : List Char) : List Char := l.dropWhile pyIsSpace

/-- Trailing half of Python `str.strip()`. -/
def dropTrailing (l : List Char) : List Char := (l.reverse.dropWhile pyIsSpace).reverse

/-- Python `str.strip()` on unicode scalar lists. -/
def stripList (l : List Char) : List Char := dropTrailing (dropLeading l)

/-- Worker for Python `str.splitlines()`: `acc` is the current line,
reversed.  A trailing line terminator produces no extra empty line. -/
def splitlinesGo : List Char → List Char → List (List Char)
  | [], acc => if acc = [] then [] else [acc.reverse]
  | [c], acc => if isLineBreak c then [acc.reverse] else [(c :: acc).reverse]
  | c1 :: c2 :: rest, acc =>
    if c1 = '\r' ∧ c2 = '\n' then acc.reverse :: splitlinesGo rest []
    else if isLineBreak c1 then acc.reverse :: splitlinesGo (c2 :: rest) []
    else splitlinesGo (c2 :: rest) (c1 :: acc)

/-- Python `str.splitlines()`. -/
def pySplitlines (l : List Char) : List (List Char) := splitlinesGo l []

/-- The three-backtick fence marker. -/
def fenceChars : List Char := String.data "```"

/-- Python `str.startswith` (pattern first, haystack second). -/
def startsWithList : List Char → List Char → Bool
  | [], _ => true
  | _ :: _, [] => false
  | p :: ps, c :: cs => p == c && startsWithList ps cs

/-- Python `"\n".join(lines)`. -/
def joinNL : List (List Char) → List Char
  | [] => []
  | [l] => l
  | l :: ls => l ++ '\n' :: joinNL ls

/-- Contiguous substring test: does `pat` occur somewhere in the list? -/
def containsList : List Char → List Char → Bool
  | [], pat => pat.isEmpty
  | c :: cs, pat => startsWithList pat (c :: cs) || containsList cs pat

/-- First step inside `strip_code_fence`: drop `lines[0]` when it
starts with the fence marker (`if lines and lines[0].startswith`). -/
def removeOpeningLine (lines : List (List Char)) : List (List Char) :=
  match lines with
  | l0 :: rest => if startsWithList fenceChars l0 then rest else lines
  | [] => lines

/-- Second step inside `strip_code_fence`: drop `lines[-1]` when its
stripped form is exactly the fence marker. -/
def removeClosingLine (lines : List (List Char)) : List (List Char) :=
  match lines.getLast? with
  | some lastL => if stripList lastL = fenceChars then lines.dropLast else lines
  | none => lines

/-- `strip_code_fence` from `src/api.py` (the source defines it twice
with an identical body: once at module level, once nested inside
`build_html`; this single definition embeds both). -/
def strip_code_fence (text : String) : String :=
  if startsWithList fenceChars (stripList text.data) then
    ⟨stripList (joinNL (removeClosingLine (removeOpeningLine (pySplitlines (stripList text.data)))))⟩
  else ⟨stripList text.data⟩

/-- The LangGraph `State` pydantic model: four channels, each merged by
the `add_value` reducer (an incoming non-`None` value replaces the old
one). -/
structure State where
  province : String := ""
  weather : String := ""
  weather_html : String := ""
  html_timestamp : ℤ := 0
deriving DecidableEq

/-- 30 minutes, in seconds. -/
def CACHE_DURATION : ℤ := 1800

/-- Node 1 (`check_cache`): keep the whole state when the cached html
is non-empty and at most `CACHE_DURATION` seconds old, otherwise clear
the working fields (the province is kept, the raw weather is emptied). -/
def check_cache (now : ℤ) (s : State) : State :=
  if s.weather_html ≠ "" ∧ now - s.html_timestamp ≤ CACHE_DURATION then
    { province := s.province, weather := s.weather,
      weather_html := s.weather_html, html_timestamp := s.html_timestamp }
  else
    { province := s.province, weather := "", weather_html := "", html_timestamp := 0 }

/-- The conditional edge out of `check_cache`, returning the name of
the next node. -/
def select_next_edge (s : State) : String :=
  if s.weather_html ≠ "" ∧ s.html_timestamp > 0 then "output_html" else "fetch_weather"

/-- Node 2 (`fetch_weather`): ask the search collaborator. -/
def fetch_weather (search : String → String) (s : State) : State :=
  { s with weather := search ("สภาพอากาศวันนี้ จังหวัด" ++ s.province) }

/-- The fixed instruction prompt `build_html` sends to the LLM. -/
def build_prompt (s : State) : String :=
  "ให้สรุปข้อมูลสภาพอากาศรายวันที่ค้นหามา (ภาษาไทย) แล้วจัดรูปแบบเป็น HTML ที่ดูสวยงามและอ่านง่าย โดยควรมีหัวข้อชื่อจังหวัด วันที่ และเนื้อหาสรุปแบบกระชับใส่ใน <div> หรือ <section>. ให้ return เฉพาะ HTML เท่านั้น ไม่ต้องมีคำอธิบาย\nข้อมูลที่ได้ (raw): "
    ++ s.weather ++ "\n"

/-- Node 3 (`build_html`): summarize the raw weather, strip the code
fence, stamp the current time.  Node 4 (`output_html`) returns the
state unchanged and needs no definition of its own. -/
def build_html (summarize : String → String) (now : ℤ) (s : State) : State :=
  { s with weather_html := strip_code_fence (summarize (build_prompt s)),
           html_timestamp := now }

/-- Modelled from the spec: the LangGraph runtime with a `MemorySaver`
checkpointer is external library code.  Per spec §4.2 and §8, invoking
a thread merges the request input `State(province=province)` into the
thread's saved channels, applying only the explicitly set `province`
field through the `add_value` reducers, so a previously cached
html/timestamp survives into step 1. -/
def merge_input (saved : Option State) (province : String) : State :=
  match saved with
  | some s => { s with province := province }
  | none => { province := province }

/-- One `graph.invoke` on the thread of `province`: merge the input,
run `check_cache` at time `tCheck`, follow the conditional edge, and on
the fetch path run `fetch_weather` then `build_html` at time `tBuild`.
Returns the final state (which becomes the thread's new checkpoint) and
whether the fetch/build path ran (i.e. whether the search and
summarizer collaborators were invoked). -/
def run_graph (search summarize : String → String) (tCheck tBuild : ℤ)
    (saved : Option State) (province : String) : State × Bool :=
  if select_next_edge (check_cache tCheck (merge_input saved province)) = "output_html" then
    (check_cache tCheck (merge_input saved province), false)
  else
    (build_html summarize tBuild (fetch_weather search (check_cache tCheck (merge_input saved province))),
      true)

/-- The fixed province allow-list from `src/api.py`. -/
def THAI_PROVINCES : List String :=
  ["กรุงเทพมหานคร", "เชียงใหม่", "เชียงราย", "ขอนแก่น", "ชลบุรี",
   "นครราชสีมา", "นครศรีธรรมราช", "ภูเก็ต", "สงขลา", "สุราษฎร์ธานี"]

/-- A FastAPI `HTTPException`, reduced to the fields the code sets. -/
structure HTTPException where
  status_code : Nat
  detail : String
deriving DecidableEq

/-- `", ".join(THAI_PROVINCES)`. -/
def provinces_joined : String := String.intercalate ", " THAI_PROVINCES

/-- The 400 detail message for an unknown province. -/
def invalid_province_detail (province : String) : String :=
  "จังหวัด \x27" ++ province ++ "\x27 ไม่พบในรายการ กรุณาเลือกจาก: " ++ provinces_joined

/-- The 500 detail message when the stripped html is empty. -/
def generation_failure_detail : String :=
  "ไม่สามารถสร้างรายงานสภาพอากาศได้ กรุณาลองใหม่อีกครั้ง"

deriving instance DecidableEq for Except

/-- Outcome of `_get_weather_report`: the returned html or the raised
`HTTPException`, the thread's checkpoint after the call, and whether
the collaborators were invoked. -/
structure ApiResult where
  result : Except HTTPException String
  cache : Option State
  invoked : Bool
deriving DecidableEq

/-- `_get_weather_report`: validate the province, run the graph, strip
the resulting html once more, and fail with 500 when it is empty.  The
graph's checkpoint is saved even when the 500 is raised afterwards. -/
def _get_weather_report (search summarize : String → String) (tCheck tBuild : ℤ)
    (cache : Option State) (province : String) : ApiResult :=
  if province ∈ THAI_PROVINCES then
    if strip_code_fence (run_graph search summarize tCheck tBuild cache province).1.weather_html = "" then
      ⟨.error ⟨500, generation_failure_detail⟩,
        some (run_graph search summarize tCheck tBuild cache province).1,
        (run_graph search summarize tCheck tBuild cache province).2⟩
    else
      ⟨.ok (strip_code_fence (run_graph search summarize tCheck tBuild cache province).1.weather_html),
        some (run_graph search summarize tCheck tBuild cache province).1,
        (run_graph search summarize tCheck tBuild cache province).2⟩
  else ⟨.error ⟨400, invalid_province_detail province⟩, cache, false⟩

/-- A FastAPI `HTMLResponse`, reduced to the fields the code sets. -/
structure HTMLResponse where
  status_code : Nat
  media_type : String
  content : String
deriving DecidableEq

/-- Outcome of an endpoint call: the HTTP response or the propagated
`HTTPException`, plus the checkpoint and collaborator-invocation flag. -/
structure EndpointResult where
  response : Except HTTPException HTMLResponse
  cache : Option State
  invoked : Bool
deriving DecidableEq

/-- The `GET /weather` endpoint: wrap the handler's html in an
`HTMLResponse` (status 200, media type `text/html`). -/
def get_weather_report (search summarize : String → String) (tCheck tBuild : ℤ)
    (cache : Option State) (province : String) : EndpointResult :=
  match _get_weather_report search summarize tCheck tBuild cache province with
  | ⟨.ok html, c, f⟩ => ⟨.ok ⟨200, "text/html", html⟩, c, f⟩
  | ⟨.error e, c, f⟩ => ⟨.error e, c, f⟩

/-- The `POST /weather` endpoint, textually the same body as the GET
endpoint. -/
def post_weather_report (search summarize : String → String) (tCheck tBuild : ℤ)
    (cache : Option State) (province : String) : EndpointResult :=
  match _get_weather_report search summarize tCheck tBuild cache province with
  | ⟨.ok html, c, f⟩ => ⟨.ok ⟨200, "text/html", html⟩, c, f⟩
  | ⟨.error e, c, f⟩ => ⟨.error e, c, f⟩


/-!
## Library lemmas

Helper facts about the Python string primitives, shared by the claim
theorems below.
-/

theorem data_append (a b : String) : (a ++ b).data = a.data ++ b.data := by
  cases a; cases b; rfl

theorem dropWhile_dropWhile (p : Char → Bool) (l : List Char) :
    List.dropWhile p (List.dropWhile p l) = List.dropWhile p l := by
  induction l with
  | nil => rfl
  | cons a t ih =>
    cases hpa : p a with
    | true => simp [List.dropWhile_cons, hpa, ih]
    | false => simp [List.dropWhile_cons, hpa]

theorem dropLeading_idem (l : List Char) : dropLeading (dropLeading l) = dropLeading l :=
  dropWhile_dropWhile pyIsSpace l

theorem dropTrailing_idem (l : List Char) : dropTrailing (dropTrailing l) = dropTrailing l := by
  unfold dropTrailing
  rw [List.reverse_reverse, dropWhile_dropWhile]

theorem dropLeading_head (l : List Char) (a : Char) (t : List Char)
    (h : dropLeading l = a :: t) : pyIsSpace a = false := by
  induction l with
  | nil => simp [dropLeading] at h
  | cons c cs ih =>
    cases hpc : pyIsSpace c with
    | true =>
      apply ih
      rw [← h]
      simp [dropLeading, List.dropWhile_cons, hpc]
    | false =>
      have : c = a := by
        have := h
        simp [dropLeading, List.dropWhile_cons, hpc] at this
        exact this.1
      rw [← this]
      exact hpc

theorem dropWhile_append_last (p : Char → Bool) (a : Char) (ha : p a = false) :
    ∀ xs : List Char, List.dropWhile p (xs ++ [a]) = List.dropWhile p xs ++ [a] := by
  intro xs
  induction xs with
  | nil => simp [List.dropWhile_cons, ha]
  | cons x t ih =>
    cases hpx : p x with
    | true => simp [List.dropWhile_cons, hpx, ih]
    | false => simp [List.dropWhile_cons, hpx]

theorem dropTrailing_cons_keep (a : Char) (t : List Char) (ha : pyIsSpace a = false) :
    dropTrailing (a :: t) = a :: dropTrailing t := by
  unfold dropTrailing
  rw [List.reverse_cons, dropWhile_append_last pyIsSpace a ha, List.reverse_append]
  rfl

theorem dropLeading_cons_keep (a : Char) (t : List Char) (ha : pyIsSpace a = false) :
    dropLeading (a :: t) = a :: t := by
  simp [dropLeading, List.dropWhile_cons, ha]

theorem stripList_idem (l : List Char) : stripList (stripList l) = stripList l := by
  unfold stripList
  have h1 : dropLeading (dropTrailing (dropLeading l)) = dropTrailing (dropLeading l) := by
    cases hd : dropLeading l with
    | nil => simp [dropTrailing, dropLeading]
    | cons a t =>
      have ha : pyIsSpace a = false := dropLeading_head l a t hd
      rw [dropTrailing_cons_keep a t ha, dropLeading_cons_keep a _ ha]
  rw [h1, dropTrailing_idem]

theorem strip_code_fence_stripped (text : String) :
    stripList (strip_code_fence text).data = (strip_code_fence text).data := by
  unfold strip_code_fence
  by_cases h : startsWithList fenceChars (stripList text.data) = true
  · rw [if_pos h]; exact stripList_idem _
  · rw [if_neg h]; exact stripList_idem _

theorem strip_code_fence_noop (s : String) (h1 : stripList s.data = s.data)
    (h2 : startsWithList fenceChars s.data = false) : strip_code_fence s = s := by
  unfold strip_code_fence
  rw [h1, h2]
  have : ¬ (false = true) := by decide
  rw [if_neg this]

theorem startsWithList_append_self (p r : List Char) :
    startsWithList p (p ++ r) = true := by
  induction p with
  | nil => rfl
  | cons q qs ih => simp [startsWithList, ih]

theorem containsList_of_startsWith (l pat : List Char)
    (h : startsWithList pat l = true) : containsList l pat = true := by
  cases l with
  | nil =>
    cases pat with
    | nil => rfl
    | cons q qs => simp [startsWithList] at h
  | cons c cs => simp [containsList, h]

theorem containsList_append_right (xs ys pat : List Char)
    (h : containsList ys pat = true) : containsList (xs ++ ys) pat = true := by
  induction xs with
  | nil => simpa using h
  | cons c cs ih => simp [containsList, ih]

theorem containsList_mid (xs pat ys : List Char) :
    containsList (xs ++ (pat ++ ys)) pat = true :=
  containsList_append_right xs _ _
    (containsList_of_startsWith _ _ (startsWithList_append_self pat ys))

theorem splitlinesGo_emit (t : List Char) : ∀ acc : List Char, acc ≠ [] →
    ∃ l0 rest, splitlinesGo t acc = (acc.reverse ++ l0) :: rest := by
  induction t with
  | nil =>
    intro acc hacc
    exact ⟨[], [], by simp [splitlinesGo, hacc]⟩
  | cons c1 l ih =>
    cases l with
    | nil =>
      intro acc hacc
      by_cases hb : isLineBreak c1 = true
      · exact ⟨[], [], by simp [splitlinesGo, hb]⟩
      · exact ⟨[c1], [], by simp [splitlinesGo, hb]⟩
    | cons c2 rest =>
      intro acc hacc
      by_cases hp : c1 = '\r' ∧ c2 = '\n'
      · exact ⟨[], splitlinesGo rest [], by simp [splitlinesGo, hp]⟩
      · by_cases hb : isLineBreak c1 = true
        · exact ⟨[], splitlinesGo (c2 :: rest) [], by simp [splitlinesGo, hp, hb]⟩
        · obtain ⟨l0, r, hr⟩ := ih (c1 :: acc) (by simp)
          refine ⟨c1 :: l0, r, ?_⟩
          have hstep : splitlinesGo (c1 :: c2 :: rest) acc = splitlinesGo (c2 :: rest) (c1 :: acc) := by
            simp [splitlinesGo, hp, hb]
          rw [hstep, hr]
          simp

theorem splitlinesGo_push (pat : List Char) : ∀ t acc : List Char,
    (∀ ch ∈ pat, isLineBreak ch = false ∧ ch ≠ '\r') →
    startsWithList pat t = true → (acc ≠ [] ∨ pat ≠ []) →
    ∃ l0 rest, splitlinesGo t acc = (acc.reverse ++ (pat ++ l0)) :: rest := by
  induction pat with
  | nil =>
    intro t acc _ _ hne
    rcases hne with h | h
    · obtain ⟨l0, r, hr⟩ := splitlinesGo_emit t acc h
      exact ⟨l0, r, by simpa using hr⟩
    · exact absurd rfl h
  | cons p ps ih =>
    intro t acc hnb hsw _
    rcases t with _ | ⟨a, t1⟩
    · simp [startsWithList] at hsw
    · have hpa : p = a ∧ startsWithList ps t1 = true := by
        simpa [startsWithList, Bool.and_eq_true, beq_iff_eq] using hsw
      obtain ⟨hpa1, hsw1⟩ := hpa
      subst hpa1
      have hnbp := hnb p (by simp)
      rcases t1 with _ | ⟨c2, rest⟩
      · have hps : ps = [] := by
          cases ps with
          | nil => rfl
          | cons q qs => simp [startsWithList] at hsw1
        subst hps
        exact ⟨[], [], by simp [splitlinesGo, hnbp.1]⟩
      · have hpair : ¬ (p = '\r' ∧ c2 = '\n') := fun hc => hnbp.2 hc.1
        have hstep : splitlinesGo (p :: c2 :: rest) acc = splitlinesGo (c2 :: rest) (p :: acc) := by
          simp [splitlinesGo, hpair, hnbp.1]
        obtain ⟨l0, r, hr⟩ :=
          ih (c2 :: rest) (p :: acc) (fun ch hch => hnb ch (List.mem_cons_of_mem _ hch))
            hsw1 (Or.inl (by simp))
        refine ⟨l0, r, ?_⟩
        rw [hstep, hr]
        simp

theorem pySplitlines_fence (t : List Char) (h : startsWithList fenceChars t = true) :
    ∃ l0 rest, pySplitlines t = l0 :: rest ∧ startsWithList fenceChars l0 = true := by
  obtain ⟨l0, rest, hr⟩ :=
    splitlinesGo_push fenceChars t [] (by decide) h (Or.inr (by decide))
  refine ⟨fenceChars ++ l0, rest, by simpa using hr, startsWithList_append_self _ _⟩

theorem check_cache_fresh (now : ℤ) (s : State)
    (h : s.weather_html ≠ "" ∧ now - s.html_timestamp ≤ CACHE_DURATION) :
    check_cache now s = s := by
  unfold check_cache
  rw [if_pos h]

theorem check_cache_province (now : ℤ) (s : State) :
    (check_cache now s).province = s.province := by
  unfold check_cache
  by_cases h : s.weather_html ≠ "" ∧ now - s.html_timestamp ≤ CACHE_DURATION
  · rw [if_pos h]
  · rw [if_neg h]

theorem merge_input_province (saved : Option State) (p : String) :
    (merge_input saved p).province = p := by
  cases saved <;> rfl

theorem merge_input_timestamp (s : State) (p : String) :
    (merge_input (some s) p).html_timestamp = s.html_timestamp := rfl

theorem merge_input_self (s : State) (p : String) (h : s.province = p) :
    merge_input (some s) p = s := by
  cases s
  subst h
  rfl

theorem run_graph_province (search summarize : String → String) (tCheck tBuild : ℤ)
    (saved : Option State) (province : String) :
    (run_graph search summarize tCheck tBuild saved province).1.province = province := by
  unfold run_graph
  by_cases h : select_next_edge (check_cache tCheck (merge_input saved province)) = "output_html"
  · rw [if_pos h]
    show (check_cache tCheck (merge_input saved province)).province = province
    rw [check_cache_province, merge_input_province]
  · rw [if_neg h]
    show (check_cache tCheck (merge_input saved province)).province = province
    rw [check_cache_province, merge_input_province]

theorem check_cache_stale (now : ℤ) (s : State)
    (h : ¬ (s.weather_html ≠ "" ∧ now - s.html_timestamp ≤ CACHE_DURATION)) :
    check_cache now s =
      { province := s.province, weather := "", weather_html := "", html_timestamp := 0 } := by
  unfold check_cache
  rw [if_neg h]

theorem select_next_edge_of_empty (s : State) (h : s.weather_html = "") :
    select_next_edge s = "fetch_weather" := by
  have hn : ¬ (s.weather_html ≠ "" ∧ s.html_timestamp > 0) := fun hc => hc.1 h
  unfold select_next_edge
  rw [if_neg hn]

theorem run_graph_cached (search summarize : String → String) (tCheck tBuild : ℤ)
    (s : State) (province : String) (hp : s.province = province)
    (hne : s.weather_html ≠ "") (hts : 0 < s.html_timestamp)
    (hfresh : tCheck - s.html_timestamp ≤ CACHE_DURATION) :
    run_graph search summarize tCheck tBuild (some s) province = (s, false) := by
  have hsel : select_next_edge s = "output_html" := by
    unfold select_next_edge
    rw [if_pos ⟨hne, hts⟩]
  unfold run_graph
  rw [merge_input_self s province hp, check_cache_fresh tCheck s ⟨hne, hfresh⟩, hsel,
    if_pos rfl]

theorem strip_code_fence_empty : strip_code_fence "" = "" := rfl

/-!
## Claim theorems
-/

/-- C1: `check_cache` returns the cached html, timestamp, province and
raw weather unchanged when the cached html is non-empty and
`now - html_timestamp <= 1800` seconds; otherwise it returns a state
with empty html and zero timestamp, preserving the province — so a
stored report is treated as fresh exactly when its age is at most 1800
seconds. -/
theorem check_cache_spec (now : ℤ) (s : State) :
    ((s.weather_html ≠ "" ∧ now - s.html_timestamp ≤ CACHE_DURATION) →
      check_cache now s = s) ∧
    (¬ (s.weather_html ≠ "" ∧ now - s.html_timestamp ≤ CACHE_DURATION) →
      (check_cache now s).weather_html = "" ∧ (check_cache now s).html_timestamp = 0 ∧
      (check_cache now s).province = s.province) := by
  constructor
  · intro h
    exact check_cache_fresh now s h
  · intro h
    unfold check_cache
    rw [if_neg h]
    exact ⟨rfl, rfl, rfl⟩

/-- Witness for C1: a fresh concrete state (age 100 seconds) comes back
unchanged. -/
theorem check_cache_spec_witness :
    ((State.mk "ขอนแก่น" "w" "<p>hi</p>" 100).weather_html ≠ "" ∧
      (200 : ℤ) - (State.mk "ขอนแก่น" "w" "<p>hi</p>" 100).html_timestamp ≤ CACHE_DURATION) ∧
    check_cache 200 (State.mk "ขอนแก่น" "w" "<p>hi</p>" 100) =
      State.mk "ขอนแก่น" "w" "<p>hi</p>" 100 :=
  ⟨by decide, (check_cache_spec 200 (State.mk "ขอนแก่น" "w" "<p>hi</p>" 100)).1 (by decide)⟩

/-- C2: for every state produced by `check_cache`, the conditional edge
routes to `output_html` iff the state's html is non-empty and its
timestamp is strictly positive, and routes to `fetch_weather` in every
other case. -/
theorem select_next_edge_spec (now : ℤ) (s : State) :
    (select_next_edge (check_cache now s) = "output_html" ↔
      ((check_cache now s).weather_html ≠ "" ∧ (check_cache now s).html_timestamp > 0)) ∧
    (¬ ((check_cache now s).weather_html ≠ "" ∧ (check_cache now s).html_timestamp > 0) →
      select_next_edge (check_cache now s) = "fetch_weather") := by
  constructor
  · unfold select_next_edge
    by_cases h : (check_cache now s).weather_html ≠ "" ∧ (check_cache now s).html_timestamp > 0
    · rw [if_pos h]
      simp [h]
    · rw [if_neg h]
      constructor
      · intro he
        exact absurd he (by decide)
      · intro hc
        exact absurd hc h
  · intro h
    unfold select_next_edge
    rw [if_neg h]

/-- Witness for C2: a concrete stale state is routed to `fetch_weather`. -/
theorem select_next_edge_spec_witness :
    ¬ ((check_cache 50 (State.mk "ชลบุรี" "" "" 0)).weather_html ≠ "" ∧
        (check_cache 50 (State.mk "ชลบุรี" "" "" 0)).html_timestamp > 0) ∧
    select_next_edge (check_cache 50 (State.mk "ชลบุรี" "" "" 0)) = "fetch_weather" :=
  ⟨by decide, (select_next_edge_spec 50 (State.mk "ชลบุรี" "" "" 0)).2 (by decide)⟩

/-- C3 counterexample: on `"```html\n<div>x</div>"` the closing marker
is absent (no line of the trimmed input strips to the bare fence), so
the claim requires the trimmed input back unchanged — yet the stripper
removes the opening line. -/
theorem strip_code_fence_counterexample :
    strip_code_fence "```html\n<div>x</div>" = "<div>x</div>" ∧
    stripList (String.data "```html\n<div>x</div>") = String.data "```html\n<div>x</div>" ∧
    (∀ ln ∈ pySplitlines (String.data "```html\n<div>x</div>"), stripList ln ≠ fenceChars) ∧
    strip_code_fence "```html\n<div>x</div>" ≠ "```html\n<div>x</div>" :=
  ⟨by decide, by decide, by decide, by decide⟩

/-- C3 (amended): when the trimmed input does not start with the fence
marker the stripper returns the trimmed input unchanged; when it does,
the opening line is always removed, and the closing line is removed
exactly when the last remaining line strips to the bare marker — so the
two wrapping lines are removed when both markers are present, but the
opening line is removed even when the closing marker is absent.  The
two examples of the spec hold. -/
theorem strip_code_fence_spec (text : String) :
    (startsWithList fenceChars (stripList text.data) = false →
      strip_code_fence text = ⟨stripList text.data⟩) ∧
    (∀ l0 mid lastL, startsWithList fenceChars (stripList text.data) = true →
      pySplitlines (stripList text.data) = l0 :: (mid ++ [lastL]) →
      stripList lastL = fenceChars →
      strip_code_fence text = ⟨stripList (joinNL mid)⟩) ∧
    (∀ l0 rest, startsWithList fenceChars (stripList text.data) = true →
      pySplitlines (stripList text.data) = l0 :: rest →
      (∀ lastL, rest.getLast? = some lastL → stripList lastL ≠ fenceChars) →
      strip_code_fence text = ⟨stripList (joinNL rest)⟩) ∧
    strip_code_fence "```html\n<div>x</div>\n```" = "<div>x</div>" ∧
    strip_code_fence "<div>x</div>" = "<div>x</div>" := by
  refine ⟨?_, ?_, ?_, by decide, by decide⟩
  · intro h
    unfold strip_code_fence
    rw [h]
    exact if_neg (by decide)
  · intro l0 mid lastL h hlines hlast
    obtain ⟨l0p, restp, hps, hsw⟩ := pySplitlines_fence _ h
    rw [hlines] at hps
    have hsw0 : startsWithList fenceChars l0 = true := by
      injection hps with h1 h2
      rw [h1]
      exact hsw
    unfold strip_code_fence
    rw [if_pos h, hlines]
    rw [show removeOpeningLine (l0 :: (mid ++ [lastL])) = mid ++ [lastL] from by
      simp [removeOpeningLine, hsw0]]
    rw [show removeClosingLine (mid ++ [lastL]) = mid from by
      simp [removeClosingLine, List.getLast?_concat, hlast, List.dropLast_concat]]
  · intro l0 rest h hlines hlast
    obtain ⟨l0p, restp, hps, hsw⟩ := pySplitlines_fence _ h
    rw [hlines] at hps
    have hsw0 : startsWithList fenceChars l0 = true := by
      injection hps with h1 h2
      rw [h1]
      exact hsw
    unfold strip_code_fence
    rw [if_pos h, hlines]
    rw [show removeOpeningLine (l0 :: rest) = rest from by simp [removeOpeningLine, hsw0]]
    cases hge : rest.getLast? with
    | none => rw [show removeClosingLine rest = rest from by simp [removeClosingLine, hge]]
    | some lastL =>
      rw [show removeClosingLine rest = rest from by
        simp [removeClosingLine, hge, hlast lastL hge]]

/-- Witness for C3: the fenced example, through the both-markers case
of the amended theorem. -/
theorem strip_code_fence_spec_witness :
    (startsWithList fenceChars (stripList (String.data "```html\n<div>x</div>\n```")) = true ∧
      pySplitlines (stripList (String.data "```html\n<div>x</div>\n```")) =
        String.data "```html" :: ([String.data "<div>x</div>"] ++ [String.data "```"]) ∧
      stripList (String.data "```") = fenceChars) ∧
    strip_code_fence "```html\n<div>x</div>\n```" =
      ⟨stripList (joinNL [String.data "<div>x</div>"])⟩ :=
  ⟨⟨by decide, by decide, by decide⟩,
    (strip_code_fence_spec "```html\n<div>x</div>\n```").2.1 (String.data "```html")
      [String.data "<div>x</div>"] (String.data "```") (by decide) (by decide) (by decide)⟩

/-- C4 counterexample: the stripper is not idempotent — applied to
`"```\n```abc\n```"` once it yields `"```abc"`, applied twice it yields
`""`. -/
theorem strip_code_fence_idem_counterexample :
    strip_code_fence "```\n```abc\n```" = "```abc" ∧
    strip_code_fence (strip_code_fence "```\n```abc\n```") = "" ∧
    strip_code_fence (strip_code_fence "```\n```abc\n```") ≠
      strip_code_fence "```\n```abc\n```" :=
  ⟨by decide, by decide, by decide⟩

/-- C4 (amended): the stripper is idempotent on every input whose
once-stripped result does not itself start with the fence marker (in
particular on fence-free inputs and on properly fenced inputs whose
body is fence-free); when the result still starts with the marker, a
second application can strip further. -/
theorem strip_code_fence_idem (text : String)
    (h : startsWithList fenceChars (strip_code_fence text).data = false) :
    strip_code_fence (strip_code_fence text) = strip_code_fence text :=
  strip_code_fence_noop _ (strip_code_fence_stripped text) h

/-- Witness for C4 at the spec's fenced example. -/
theorem strip_code_fence_idem_witness :
    startsWithList fenceChars (strip_code_fence "```html\n<div>x</div>\n```").data = false ∧
    strip_code_fence (strip_code_fence "```html\n<div>x</div>\n```") =
      strip_code_fence "```html\n<div>x</div>\n```" :=
  ⟨by decide, strip_code_fence_idem "```html\n<div>x</div>\n```" (by decide)⟩

/-- C5: if a request for a valid province succeeds, then a second
request for the same province whose cache check happens while the
stored report is still fresh (within 1800 seconds of its timestamp)
returns byte-identical html — the same `.ok` payload — and the second
run short-circuits from the cache check to the output node, invoking
neither the search collaborator nor the summarizer. -/
theorem cached_second_call (search1 summ1 search2 summ2 : String → String)
    (t1 t2 t3 t4 : ℤ) (saved : Option State) (province : String)
    (hmem : province ∈ THAI_PROVINCES)
    (hok : strip_code_fence (run_graph search1 summ1 t1 t2 saved province).1.weather_html ≠ "")
    (hts : 0 < (run_graph search1 summ1 t1 t2 saved province).1.html_timestamp)
    (hfresh : t3 - (run_graph search1 summ1 t1 t2 saved province).1.html_timestamp ≤
      CACHE_DURATION) :
    _get_weather_report search1 summ1 t1 t2 saved province =
      ⟨.ok (strip_code_fence (run_graph search1 summ1 t1 t2 saved province).1.weather_html),
        some (run_graph search1 summ1 t1 t2 saved province).1,
        (run_graph search1 summ1 t1 t2 saved province).2⟩ ∧
    run_graph search2 summ2 t3 t4 (some (run_graph search1 summ1 t1 t2 saved province).1)
        province =
      ((run_graph search1 summ1 t1 t2 saved province).1, false) ∧
    _get_weather_report search2 summ2 t3 t4
        (some (run_graph search1 summ1 t1 t2 saved province).1) province =
      ⟨.ok (strip_code_fence (run_graph search1 summ1 t1 t2 saved province).1.weather_html),
        some (run_graph search1 summ1 t1 t2 saved province).1, false⟩ := by
  have hne : (run_graph search1 summ1 t1 t2 saved province).1.weather_html ≠ "" := by
    intro hempty
    apply hok
    rw [hempty]
    exact strip_code_fence_empty
  have hget1 : _get_weather_report search1 summ1 t1 t2 saved province =
      ⟨.ok (strip_code_fence (run_graph search1 summ1 t1 t2 saved province).1.weather_html),
        some (run_graph search1 summ1 t1 t2 saved province).1,
        (run_graph search1 summ1 t1 t2 saved province).2⟩ := by
    unfold _get_weather_report
    rw [if_pos hmem, if_neg hok]
  have hrun2 : run_graph search2 summ2 t3 t4
      (some (run_graph search1 summ1 t1 t2 saved province).1) province =
      ((run_graph search1 summ1 t1 t2 saved province).1, false) :=
    run_graph_cached search2 summ2 t3 t4 _ province
      (run_graph_province search1 summ1 t1 t2 saved province) hne hts hfresh
  have hget2 : _get_weather_report search2 summ2 t3 t4
      (some (run_graph search1 summ1 t1 t2 saved province).1) province =
      ⟨.ok (strip_code_fence (run_graph search1 summ1 t1 t2 saved province).1.weather_html),
        some (run_graph search1 summ1 t1 t2 saved province).1, false⟩ := by
    unfold _get_weather_report
    rw [if_pos hmem, hrun2]
    dsimp only
    rw [if_neg hok]
  exact ⟨hget1, hrun2, hget2⟩

/-- Witness for C5: a concrete first call at times 1000/1001 (fetch and
build), then a second call at time 2000 — 999 seconds later — which is
served from the cache. -/
theorem cached_second_call_witness :
    ("ภูเก็ต" ∈ THAI_PROVINCES ∧
      strip_code_fence
        (run_graph (fun _ => "sunny") (fun _ => "<div>ok</div>") 1000 1001 none
          "ภูเก็ต").1.weather_html ≠ "" ∧
      0 < (run_graph (fun _ => "sunny") (fun _ => "<div>ok</div>") 1000 1001 none
          "ภูเก็ต").1.html_timestamp ∧
      (2000 : ℤ) - (run_graph (fun _ => "sunny") (fun _ => "<div>ok</div>") 1000 1001 none
          "ภูเก็ต").1.html_timestamp ≤ CACHE_DURATION) ∧
    run_graph (fun _ => "x2") (fun _ => "y2") 2000 2001
        (some (run_graph (fun _ => "sunny") (fun _ => "<div>ok</div>") 1000 1001 none
          "ภูเก็ต").1) "ภูเก็ต" =
      ((run_graph (fun _ => "sunny") (fun _ => "<div>ok</div>") 1000 1001 none "ภูเก็ต").1,
        false) :=
  ⟨⟨by decide, by decide, by decide, by decide⟩,
    (cached_second_call (fun _ => "sunny") (fun _ => "<div>ok</div>") (fun _ => "x2")
      (fun _ => "y2") 1000 1001 2000 2001 none "ภูเก็ต" (by decide) (by decide) (by decide)
      (by decide)).2.1⟩

/-- Helper for C6: each valid province occurs verbatim in the joined
allow-list. -/
theorem provinces_joined_contains :
    ∀ p ∈ THAI_PROVINCES, containsList provinces_joined.data p.data = true := by decide

/-- C6: an unknown province makes the handler fail with a 400 error
whose message contains the invalid province and every valid province,
without running the pipeline — the checkpoint is unchanged and the
collaborators are not invoked. -/
theorem invalid_province_spec (search summarize : String → String) (tCheck tBuild : ℤ)
    (cache : Option State) (province : String) (hmem : province ∉ THAI_PROVINCES) :
    _get_weather_report search summarize tCheck tBuild cache province =
      ⟨.error ⟨400, invalid_province_detail province⟩, cache, false⟩ ∧
    containsList (invalid_province_detail province).data province.data = true ∧
    (∀ p ∈ THAI_PROVINCES,
      containsList (invalid_province_detail province).data p.data = true) := by
  refine ⟨?_, ?_, ?_⟩
  · unfold _get_weather_report
    rw [if_neg hmem]
  · unfold invalid_province_detail
    rw [data_append, data_append, data_append, List.append_assoc, List.append_assoc]
    exact containsList_mid _ _ _
  · intro p hp
    unfold invalid_province_detail
    rw [data_append]
    exact containsList_append_right _ _ _ (provinces_joined_contains p hp)

/-- Witness for C6 at a concrete unknown province. -/
theorem invalid_province_spec_witness :
    ("ปารีส" ∉ THAI_PROVINCES) ∧
    _get_weather_report (fun _ => "w") (fun _ => "h") 0 0 none "ปารีส" =
      ⟨.error ⟨400, invalid_province_detail "ปารีส"⟩, none, false⟩ :=
  ⟨by decide,
    (invalid_province_spec (fun _ => "w") (fun _ => "h") 0 0 none "ปารีส" (by decide)).1⟩

/-- C7 counterexample: a summarizer returning `"```a\n```\n```"` makes
the pipeline complete with resulting html `"```"` — non-empty — yet the
handler returns the 500 generation-failure error instead of a 200
response with that html. -/
theorem report_result_counterexample :
    (run_graph (fun _ => "w") (fun _ => "```a\n```\n```") 1 2 none
      "ภูเก็ต").1.weather_html = "```" ∧
    (run_graph (fun _ => "w") (fun _ => "```a\n```\n```") 1 2 none
      "ภูเก็ต").1.weather_html ≠ "" ∧
    get_weather_report (fun _ => "w") (fun _ => "```a\n```\n```") 1 2 none "ภูเก็ต" =
      ⟨.error ⟨500, generation_failure_detail⟩,
        some (run_graph (fun _ => "w") (fun _ => "```a\n```\n```") 1 2 none "ภูเก็ต").1,
        true⟩ :=
  ⟨by decide, by decide, by decide⟩

/-- C7 (amended): for a valid province the GET endpoint fails with the
500 generation-failure error exactly when the fence-stripped html of
the pipeline result is empty; otherwise it returns that stripped html
with status 200 and media type text/html. -/
theorem report_result_spec (search summarize : String → String) (tCheck tBuild : ℤ)
    (cache : Option State) (province : String) (hmem : province ∈ THAI_PROVINCES) :
    (strip_code_fence (run_graph search summarize tCheck tBuild cache province).1.weather_html
        = "" →
      get_weather_report search summarize tCheck tBuild cache province =
        ⟨.error ⟨500, generation_failure_detail⟩,
          some (run_graph search summarize tCheck tBuild cache province).1,
          (run_graph search summarize tCheck tBuild cache province).2⟩) ∧
    (strip_code_fence (run_graph search summarize tCheck tBuild cache province).1.weather_html
        ≠ "" →
      get_weather_report search summarize tCheck tBuild cache province =
        ⟨.ok ⟨200, "text/html",
            strip_code_fence
              (run_graph search summarize tCheck tBuild cache province).1.weather_html⟩,
          some (run_graph search summarize tCheck tBuild cache province).1,
          (run_graph search summarize tCheck tBuild cache province).2⟩) := by
  constructor
  · intro h
    unfold get_weather_report _get_weather_report
    rw [if_pos hmem, if_pos h]
  · intro h
    unfold get_weather_report _get_weather_report
    rw [if_pos hmem, if_neg h]

/-- Witness for C7: a concrete successful run through the 200 branch. -/
theorem report_result_spec_witness :
    ("ภูเก็ต" ∈ THAI_PROVINCES ∧
      strip_code_fence
        (run_graph (fun _ => "sunny") (fun _ => "<div>ok</div>") 1 2 none
          "ภูเก็ต").1.weather_html ≠ "") ∧
    get_weather_report (fun _ => "sunny") (fun _ => "<div>ok</div>") 1 2 none "ภูเก็ต" =
      ⟨.ok ⟨200, "text/html",
          strip_code_fence
            (run_graph (fun _ => "sunny") (fun _ => "<div>ok</div>") 1 2 none
              "ภูเก็ต").1.weather_html⟩,
        some (run_graph (fun _ => "sunny") (fun _ => "<div>ok</div>") 1 2 none "ภูเก็ต").1,
        (run_graph (fun _ => "sunny") (fun _ => "<div>ok</div>") 1 2 none "ภูเก็ต").2⟩ :=
  ⟨⟨by decide, by decide⟩,
    (report_result_spec (fun _ => "sunny") (fun _ => "<div>ok</div>") 1 2 none "ภูเก็ต"
      (by decide)).2 (by decide)⟩

/-- C8: the GET and POST weather endpoints produce identical results on
every input — same response on success and same error on failure. -/
theorem get_post_equivalent (search summarize : String → String) (tCheck tBuild : ℤ)
    (cache : Option State) (province : String) :
    get_weather_report search summarize tCheck tBuild cache province =
      post_weather_report search summarize tCheck tBuild cache province := rfl

/-- C9: a pipeline run never decreases the stored timestamp: when the
saved report's timestamp is at most the cache-check time and the clock
is non-decreasing (check time at most build time), the timestamp the
run stores is at least the one it replaces. -/
theorem timestamp_monotone (search summarize : String → String) (t1 t2 : ℤ)
    (s : State) (province : String)
    (h1 : s.html_timestamp ≤ t1) (h2 : t1 ≤ t2) :
    s.html_timestamp ≤ (run_graph search summarize t1 t2 (some s) province).1.html_timestamp := by
  unfold run_graph
  by_cases hc : (merge_input (some s) province).weather_html ≠ "" ∧
      t1 - (merge_input (some s) province).html_timestamp ≤ CACHE_DURATION
  · rw [check_cache_fresh t1 _ hc]
    by_cases hsel : select_next_edge (merge_input (some s) province) = "output_html"
    · rw [if_pos hsel]
      show s.html_timestamp ≤ (merge_input (some s) province).html_timestamp
      rw [merge_input_timestamp]
    · rw [if_neg hsel]
      show s.html_timestamp ≤ t2
      exact le_trans h1 h2
  · rw [check_cache_stale t1 _ hc, select_next_edge_of_empty _ rfl,
      if_neg (by decide : ¬ (("fetch_weather" : String) = "output_html"))]
    show s.html_timestamp ≤ t2
    exact le_trans h1 h2

/-- Witness for C9: a concrete overwrite (stale report of timestamp 5,
cache check at 10, rebuild at 20) keeps the timestamp non-decreasing. -/
theorem timestamp_monotone_witness :
    ((State.mk "สงขลา" "w" "<p>h</p>" 5).html_timestamp ≤ (10 : ℤ) ∧ (10 : ℤ) ≤ 20) ∧
    (State.mk "สงขลา" "w" "<p>h</p>" 5).html_timestamp ≤
      (run_graph (fun _ => "w") (fun _ => "<p>h</p>") 10 20
        (some (State.mk "สงขลา" "w" "<p>h</p>" 5)) "สงขลา").1.html_timestamp :=
  ⟨⟨by decide, by decide⟩,
    timestamp_monotone (fun _ => "w") (fun _ => "<p>h</p>") 10 20
      (State.mk "สงขลา" "w" "<p>h</p>" 5) "สงขลา" (by decide) (by decide)⟩

/-- C10 counterexample: a pipeline result whose html consists solely of
fence-marker lines need not produce a 500 — with summarizer output
`"```x\n```\n```\n```\n```"` the stored html is `"```\n```\n```"`,
three bare fence-marker lines, and the handler succeeds, returning the
once-more-stripped body `"```"`. -/
theorem fence_lines_counterexample :
    (run_graph (fun _ => "w") (fun _ => "```x\n```\n```\n```\n```") 1 2 none
      "สงขลา").1.weather_html = "```\n```\n```" ∧
    (∀ ln ∈ pySplitlines (String.data "```\n```\n```"), stripList ln = fenceChars) ∧
    _get_weather_report (fun _ => "w") (fun _ => "```x\n```\n```\n```\n```") 1 2 none
        "สงขลา" =
      ⟨.ok "```",
        some (run_graph (fun _ => "w") (fun _ => "```x\n```\n```\n```\n```") 1 2 none
          "สงขลา").1,
        true⟩ :=
  ⟨by decide, by decide, by decide⟩

/-- C10 (amended): the handler strips the pipeline html a second time
before the emptiness check, so whenever the pipeline result's html is
non-empty but strips to empty (for example the lone fence-marker line
`"```"`, and likewise any html whose second strip vanishes, such as the
claim's `"```html"` followed by `"```"`), the handler raises the 500
generation-failure error even though the checkpoint stored for the
province holds that non-empty html. -/
theorem second_strip_500 (search summarize : String → String) (tCheck tBuild : ℤ)
    (cache : Option State) (province : String) (hmem : province ∈ THAI_PROVINCES)
    (hne : (run_graph search summarize tCheck tBuild cache province).1.weather_html ≠ "")
    (hstrip : strip_code_fence
      (run_graph search summarize tCheck tBuild cache province).1.weather_html = "") :
    _get_weather_report search summarize tCheck tBuild cache province =
      ⟨.error ⟨500, generation_failure_detail⟩,
        some (run_graph search summarize tCheck tBuild cache province).1,
        (run_graph search summarize tCheck tBuild cache province).2⟩ ∧
    (_get_weather_report search summarize tCheck tBuild cache province).cache =
      some (run_graph search summarize tCheck tBuild cache province).1 ∧
    (run_graph search summarize tCheck tBuild cache province).1.weather_html ≠ "" := by
  have h1 : _get_weather_report search summarize tCheck tBuild cache province =
      ⟨.error ⟨500, generation_failure_detail⟩,
        some (run_graph search summarize tCheck tBuild cache province).1,
        (run_graph search summarize tCheck tBuild cache province).2⟩ := by
    unfold _get_weather_report
    rw [if_pos hmem, if_pos hstrip]
  exact ⟨h1, by rw [h1], hne⟩

/-- Witness for C10: a summarizer whose output strips to the lone
fence line `"```"` — stored in the cache, but turned into a 500 by the
handler's second strip. -/
theorem second_strip_500_witness :
    ("เชียงใหม่" ∈ THAI_PROVINCES ∧
      (run_graph (fun _ => "w2") (fun _ => "```b\n```\n```") 3 4 none
        "เชียงใหม่").1.weather_html ≠ "" ∧
      strip_code_fence (run_graph (fun _ => "w2") (fun _ => "```b\n```\n```") 3 4 none
        "เชียงใหม่").1.weather_html = "") ∧
    _get_weather_report (fun _ => "w2") (fun _ => "```b\n```\n```") 3 4 none "เชียงใหม่" =
      ⟨.error ⟨500, generation_failure_detail⟩,
        some (run_graph (fun _ => "w2") (fun _ => "```b\n```\n```") 3 4 none
          "เชียงใหม่").1,
        (run_graph (fun _ => "w2") (fun _ => "```b\n```\n```") 3 4 none "เชียงใหม่").2⟩ :=
  ⟨⟨by decide, by decide, by decide⟩,
    (second_strip_500 (fun _ => "w2") (fun _ => "```b\n```\n```") 3 4 none "เชียงใหม่"
      (by decide) (by decide) (by decide)).1⟩

end WeatherApi
